import Mathlib

/-!
Verification of the LoopGenie client-side video compositor.

The compositor lives in the video-stitching service module: `stitchVideoFrames`
assembles an ordered list of image URLs (plus an optional audio URL) into a
recorded video by drawing onto a canvas and capturing the canvas stream with a
`MediaRecorder`; `cropVideo` re-records an existing video onto a canvas with
cover-fit cropping.  The server-side `ffmpegService.ts` exports a stub of the
same name.  All numeric quantities of the source (pixel dimensions, durations,
ratios) are embedded as rationals; browser side effects (image loads, audio
fetch/decode, codec support queries, the deadline race) are supplied by
explicit environment records, and each pipeline is a function from its inputs
and environment to a result record describing how the returned promise
settles, which I/O events were issued, the combined stream handed to the
recorder, and the state of the held resources (audio context, recorder) at the
moment the promise settles.
-/

namespace CanvasStitcher

/-- Per-source draw rectangle: the four values `renderW`, `renderH`, `offsetX`,
`offsetY` computed by the object-cover block of the draw loops. -/
structure CoverFit where
  renderW : ℚ
  renderH : ℚ
  offsetX : ℚ
  offsetY : ℚ
deriving DecidableEq, Repr

/-- Object-cover geometry computed per image inside the draw loop of
`stitchVideoFrames` (part_000 lines 328-346).  `imgRatio` is
`naturalW / naturalH`, `targetRatio` is `canvasW / canvasH`; the wide branch
(`imgRatio > targetRatio`) fixes the render height to the canvas height and
centers horizontally, the other branch fixes the render width and centers
vertically. -/
def stitchCoverFit (naturalW naturalH canvasW canvasH : ℚ) : CoverFit :=
  if naturalW / naturalH > canvasW / canvasH then
    { renderH := canvasH
      renderW := naturalW * (canvasH / naturalH)
      offsetX := (canvasW - naturalW * (canvasH / naturalH)) / 2
      offsetY := 0 }
  else
    { renderW := canvasW
      renderH := naturalH * (canvasW / naturalW)
      offsetX := 0
      offsetY := (canvasH - naturalH * (canvasW / naturalW)) / 2 }

/-- Object-cover geometry computed per animation frame inside `cropVideo`
(part_000 lines 461-479); textually the same computation as the block in
`stitchVideoFrames`, with the video's natural dimensions as source. -/
def cropCoverFit (videoW videoH canvasW canvasH : ℚ) : CoverFit :=
  if videoW / videoH > canvasW / canvasH then
    { renderH := canvasH
      renderW := videoW * (canvasH / videoH)
      offsetX := (canvasW - videoW * (canvasH / videoH)) / 2
      offsetY := 0 }
  else
    { renderW := canvasW
      renderH := videoH * (canvasW / videoW)
      offsetX := 0
      offsetY := (canvasH - videoH * (canvasW / videoW)) / 2 }

/-- The cover-fit geometry property asserted by the specification: the render
rectangle covers the target, equals the natural dimensions scaled by
`max (targetW / srcW) (targetH / srcH)`, centers the overflow, has both
offsets zero exactly when the aspect ratios agree and exactly one offset zero
when they differ. -/
def coverFitClaim (iW iH tW tH : ℚ) (c : CoverFit) : Prop :=
  tW ≤ c.renderW ∧ tH ≤ c.renderH ∧
  c.renderW = iW * max (tW / iW) (tH / iH) ∧
  c.renderH = iH * max (tW / iW) (tH / iH) ∧
  c.offsetX = (tW - c.renderW) / 2 ∧
  c.offsetY = (tH - c.renderH) / 2 ∧
  (iW / iH = tW / tH → c.offsetX = 0 ∧ c.offsetY = 0) ∧
  (iW / iH ≠ tW / tH →
    (c.offsetX = 0 ∧ c.offsetY ≠ 0) ∨ (c.offsetX ≠ 0 ∧ c.offsetY = 0))

/-- Offset sign property: neither offset is ever positive, and at least one is
exactly zero. -/
def coverFitOffsets (c : CoverFit) : Prop :=
  c.offsetX ≤ 0 ∧ c.offsetY ≤ 0 ∧ (c.offsetX = 0 ∨ c.offsetY = 0)

/-- Kinds of media tracks in a `MediaStream`. -/
inductive Track where
  | video
  | audio
deriving DecidableEq, Repr

/-- Network requests issued by the pipeline: an image-element load (one fetch
per `loadImage` call) or the audio fetch. -/
inductive IOEvent where
  | loadImage (src : String)
  | fetchAudio (url : String)
deriving DecidableEq, Repr

/-- Classification of the rejections `stitchVideoFrames` can surface.
`invalidInput` is the error class the specification demands for an empty image
list; the code never produces it.  `mediaLoad src` is the rejection of a
`loadImage` promise (the image element's error event).  `timeout` is the
rejection installed by the 30-second `setTimeout` guard (line 207). -/
inductive StitchError where
  | invalidInput
  | mediaLoad (src : String)
  | timeout
deriving DecidableEq, Repr

/-- How a JS promise settles. -/
inductive Settled (ε : Type) where
  | resolved
  | rejected (e : ε)
deriving DecidableEq, Repr

/-- Browser environment supplied to one `stitchVideoFrames` invocation:
`imageDims src` is the natural size an image element obtains for URL `src`
(`none` when the load errors); `audioDecode url` is the duration in seconds of
the decoded `AudioBuffer` (`none` when the fetch or `decodeAudioData` throws);
`isTypeSupported` is `MediaRecorder.isTypeSupported`; `timeoutFires` is true
when wall-clock drawing has not completed when the 30-second deadline
expires. -/
structure StitchEnv where
  imageDims : String → Option (ℚ × ℚ)
  audioDecode : String → Option ℚ
  isTypeSupported : String → Bool
  timeoutFires : Bool

/-- Deadline of the `stitchVideoFrames` guard in milliseconds
(part_000 line 208: `}, 30000);`). -/
def stitchTimeoutMs : ℕ := 30000

/-- Deadline of the `cropVideo` guard in milliseconds
(part_000 line 386: `}, 60000);`). -/
def cropTimeoutMs : ℕ := 60000

/-- Result of the audio-preparation step (part_000 lines 233-260): whether a
`MediaStreamAudioDestinationNode` was wired (`dest`), whether an
`AudioContext` was constructed (it is constructed before the fetch, so it
exists even when the fetch or decode later throws), the possibly re-derived
per-image duration, and the network events issued. -/
structure AudioPrep where
  dest : Bool
  ctxCreated : Bool
  durationPerImageMs : ℚ
  events : List IOEvent
deriving DecidableEq, Repr

/-- Audio preparation of `stitchVideoFrames` (part_000 lines 233-260).  With
no audio URL the whole block is skipped.  Otherwise the context is created and
the URL fetched and decoded inside a `try`: any failure is caught, logged, and
the pipeline continues without audio.  On success, when the decoded duration
is positive (line 246: `if (audioBuffer.duration && audioBuffer.duration > 0)`)
the caller-supplied per-image duration is overwritten with
`(duration * 1000) / images.length` (line 247). -/
def prepareAudio (env : StitchEnv) (audioUrl : Option String) (imageCount : ℕ)
    (callerMs : ℚ) : AudioPrep :=
  match audioUrl with
  | none =>
      { dest := false, ctxCreated := false, durationPerImageMs := callerMs
        events := [] }
  | some url =>
      match env.audioDecode url with
      | none =>
          { dest := false, ctxCreated := true, durationPerImageMs := callerMs
            events := [IOEvent.fetchAudio url] }
      | some d =>
          { dest := true, ctxCreated := true
            durationPerImageMs :=
              if 0 < d then d * 1000 / (imageCount : ℚ) else callerMs
            events := [IOEvent.fetchAudio url] }

/-- Ordered mime-type preference list of `stitchVideoFrames`
(part_000 lines 276-281). -/
def stitchMimeTypes : List String :=
  ["video/webm; codecs=vp9", "video/webm; codecs=vp8", "video/webm",
    "video/mp4"]

/-- Mime-type selection loop of `stitchVideoFrames` (part_000 lines 283-289):
`mimeType` starts as the hard-coded `'video/webm'` and is replaced by the
first entry the runtime reports as supported; when no entry is supported the
hard-coded default survives and the pipeline proceeds with it. -/
def stitchSelectMimeType (isSupported : String → Bool) : String :=
  match stitchMimeTypes.find? isSupported with
  | some t => t
  | none => "video/webm"

/-- Ordered mime-type preference list of `cropVideo`
(part_000 lines 424-429); textually identical to the stitch list. -/
def cropMimeTypes : List String :=
  ["video/webm; codecs=vp9", "video/webm; codecs=vp8", "video/webm",
    "video/mp4"]

/-- Mime-type selection loop of `cropVideo` (part_000 lines 430-436);
textually identical to the stitch loop. -/
def cropSelectMimeType (isSupported : String → Bool) : String :=
  match cropMimeTypes.find? isSupported with
  | some t => t
  | none => "video/webm"

/-- JS `target || natural` applied to the optional target dimensions
(part_000 lines 221-222): `undefined` and `0` are falsy, so the natural
dimension of the first image is used in those cases. -/
def orNatural (target : Option ℚ) (natural : ℚ) : ℚ :=
  match target with
  | some v => if v = 0 then natural else v
  | none => natural

/-- Accumulated effect of the draw loop (part_000 lines 325-359): the image
loads it issued, the wall-clock window each image was drawn for, the cover-fit
rectangle computed for each image, and the source whose load rejected (which
aborts the loop and the surrounding `try`), if any. -/
structure DrawStep where
  events : List IOEvent
  windows : List ℚ
  geoms : List CoverFit
  failed : Option String
deriving DecidableEq, Repr

/-- The draw loop of `stitchVideoFrames` (part_000 lines 325-359): for each
image in order, await its load (a rejection propagates to the surrounding
`try`), compute the object-cover rectangle once, then repeatedly draw it for
`durMs` milliseconds of wall-clock time. -/
def drawLoop (env : StitchEnv) (canvasW canvasH durMs : ℚ) :
    List String → DrawStep
  | [] => { events := [], windows := [], geoms := [], failed := none }
  | src :: rest =>
      match env.imageDims src with
      | none =>
          { events := [IOEvent.loadImage src], windows := [], geoms := []
            failed := some src }
      | some (w, v) =>
          let r := drawLoop env canvasW canvasH durMs rest
          { events := IOEvent.loadImage src :: r.events
            windows := durMs :: r.windows
            geoms := stitchCoverFit w v canvasW canvasH :: r.geoms
            failed := r.failed }

/-- Observable outcome of one `stitchVideoFrames` invocation, recorded at the
moment the outer promise settles: how it settled, the network events issued,
the tracks of the combined stream handed to the recorder (`none` when the
pipeline failed before constructing it), the chosen recording mime type, the
per-image draw windows and geometries of a completed draw loop, whether the
audio context had been closed (`none` when none was created), and whether the
recorder was still in the recording state. -/
structure StitchResult where
  outcome : Settled StitchError
  events : List IOEvent
  combined : Option (List Track)
  mimeType : Option String
  drawWindows : Option (List ℚ)
  geometries : Option (List CoverFit)
  audioCtxClosed : Option Bool
  recorderRecording : Bool
deriving DecidableEq, Repr

/-- The second (timeout-guarded) draft of `stitchVideoFrames`
(part_000 lines 195-369), the one the claims cite.  Control flow of the
source, in order: load `images[0]` — there is no emptiness check, and on an
empty list JS `images[0]` is `undefined`, which the image element coerces to
the relative URL string "undefined", so a network fetch is attempted and the
load rejects; size the canvas from the target dimensions or the first image;
prepare audio (best-effort, see `prepareAudio`); build the combined stream
from the canvas stream's single video track plus, when an audio destination
exists, the first audio track of its stream; select the mime type; create and
start the recorder and run the draw loop.  On normal completion
`recorder.stop()` fires `onstop`, which stops the source node, closes the
audio context and resolves.  When the 30-second guard expires first
(`env.timeoutFires`), the guard's callback only rejects (lines 206-208): no
teardown is performed, so at settlement the recorder is still recording and
the audio context still open.  A load rejection inside the draw loop hits the
outer `catch`, which also only clears the timer and rejects. -/
def stitchVideoFrames (env : StitchEnv) (images : List String)
    (audioUrl : Option String) (durationPerImageMs : ℚ)
    (targetWidth targetHeight : Option ℚ) : StitchResult :=
  let firstSrc := (images.head?).getD "undefined"
  match env.imageDims firstSrc with
  | none =>
      { outcome := Settled.rejected (StitchError.mediaLoad firstSrc)
        events := [IOEvent.loadImage firstSrc]
        combined := none
        mimeType := none
        drawWindows := none
        geometries := none
        audioCtxClosed := none
        recorderRecording := false }
  | some (fw, fh) =>
      let canvasW := orNatural targetWidth fw
      let canvasH := orNatural targetHeight fh
      let ap := prepareAudio env audioUrl images.length durationPerImageMs
      let tracks := Track.video :: (if ap.dest then [Track.audio] else [])
      let mt := stitchSelectMimeType env.isTypeSupported
      if env.timeoutFires then
        { outcome := Settled.rejected StitchError.timeout
          events := IOEvent.loadImage firstSrc :: ap.events
          combined := some tracks
          mimeType := some mt
          drawWindows := none
          geometries := none
          audioCtxClosed := if ap.ctxCreated then some false else none
          recorderRecording := true }
      else
        let dl := drawLoop env canvasW canvasH ap.durationPerImageMs images
        match dl.failed with
        | some src =>
            { outcome := Settled.rejected (StitchError.mediaLoad src)
              events := IOEvent.loadImage firstSrc :: (ap.events ++ dl.events)
              combined := some tracks
              mimeType := some mt
              drawWindows := none
              geometries := none
              audioCtxClosed := if ap.ctxCreated then some false else none
              recorderRecording := true }
        | none =>
            { outcome := Settled.resolved
              events := IOEvent.loadImage firstSrc :: (ap.events ++ dl.events)
              combined := some tracks
              mimeType := some mt
              drawWindows := some dl.windows
              geometries := some dl.geoms
              audioCtxClosed := if ap.ctxCreated then some true else none
              recorderRecording := false }

/-- Classification of the rejections `cropVideo` can surface. -/
inductive CropError where
  | canvasContext
  | loadError (message : String)
  | playError
  | timeout
deriving DecidableEq, Repr

/-- Message of the rejection installed on the video element's error event
(part_000 line 505), the cross-origin failure mode of `cropVideo`. -/
def corsMessage : String :=
  "Error loading video source for crop. Likely CORS issue."

/-- Browser environment supplied to one `cropVideo` invocation:
`ctxAvailable` is whether `canvas.getContext` returns a context;
`videoNatural` is the natural size of the source video once metadata loads
(`none` when the element fires its error event instead, e.g. on an
origin-policy denial); `playSucceeds` is whether `video.play()` resolves;
`timeoutFires` is true when playback has not ended when the 60-second
deadline expires. -/
structure CropEnv where
  ctxAvailable : Bool
  videoNatural : Option (ℚ × ℚ)
  playSucceeds : Bool
  isTypeSupported : String → Bool
  timeoutFires : Bool

/-- Observable outcome of one `cropVideo` invocation at the moment its
promise settles; fields as in `StitchResult`, with the single cover-fit
rectangle the render loop computes from the video's natural size. -/
structure CropResult where
  outcome : Settled CropError
  combined : Option (List Track)
  mimeType : Option String
  geometry : Option CoverFit
  audioCtxClosed : Option Bool
  recorderRecording : Bool
deriving DecidableEq, Repr

/-- `cropVideo` (part_000 lines 375-508).  Control flow of the source: reject
when no canvas context is available (before any media setup); otherwise
create the audio context and destination, combine the canvas stream's video
track with the destination stream's audio track, select the mime type and
create the recorder, then wait on the video element.  If the element fires
its error event (cross-origin denial being the documented cause) the promise
rejects with the CORS message; the recorder was never started.  On metadata
load the recorder starts and playback begins: a `play()` rejection rejects
the promise with the recorder left recording; if the 60-second guard expires
before playback ends, its callback only rejects (lines 384-386) with no
teardown; otherwise playback ends, the recorder stops, and `onstop` closes
the audio context and resolves. -/
def cropVideo (env : CropEnv) (sourceUrl : String)
    (targetWidth targetHeight : ℚ) : CropResult :=
  if env.ctxAvailable = true then
    let tracks := [Track.video, Track.audio]
    let mt := cropSelectMimeType env.isTypeSupported
    match env.videoNatural with
    | none =>
        { outcome := Settled.rejected (CropError.loadError corsMessage)
          combined := some tracks
          mimeType := some mt
          geometry := none
          audioCtxClosed := some false
          recorderRecording := false }
    | some (vw, vh) =>
        if env.playSucceeds = false then
          { outcome := Settled.rejected CropError.playError
            combined := some tracks
            mimeType := some mt
            geometry := none
            audioCtxClosed := some false
            recorderRecording := true }
        else if env.timeoutFires then
          { outcome := Settled.rejected CropError.timeout
            combined := some tracks
            mimeType := some mt
            geometry := some (cropCoverFit vw vh targetWidth targetHeight)
            audioCtxClosed := some false
            recorderRecording := true }
        else
          { outcome := Settled.resolved
            combined := some tracks
            mimeType := some mt
            geometry := some (cropCoverFit vw vh targetWidth targetHeight)
            audioCtxClosed := some true
            recorderRecording := false }
  else
    { outcome := Settled.rejected CropError.canvasContext
      combined := none
      mimeType := none
      geometry := none
      audioCtxClosed := none
      recorderRecording := false }

/-- Environment for the C3 evaluation of `stitchVideoFrames`: every image
resolves, the audio decodes with duration 9 s, every encoding is supported,
and drawing has not completed when the 30-second deadline expires. -/
def timeoutStitchEnv : StitchEnv :=
  { imageDims := fun _ => some (800, 600)
    audioDecode := fun _ => some 9
    isTypeSupported := fun _ => true
    timeoutFires := true }

/-- Environment for the C3 evaluation of `cropVideo`: the context is
available, the video loads, playback starts, and playback has not ended when
the 60-second deadline expires. -/
def timeoutCropEnv : CropEnv :=
  { ctxAvailable := true
    videoNatural := some (1920, 1080)
    playSucceeds := true
    isTypeSupported := fun _ => true
    timeoutFires := true }

/-- Environment for the C4 evaluation: no URL resolves to an image (in
particular the URL "undefined" does not), there is no audio, and no deadline
expires. -/
def emptyInputEnv : StitchEnv :=
  { imageDims := fun _ => none
    audioDecode := fun _ => none
    isTypeSupported := fun _ => true
    timeoutFires := false }

/-- Environment for the C6 counterexample: everything loads, but the runtime
reports every mime type of the preference list as unsupported. -/
def noEncodingEnv : StitchEnv :=
  { imageDims := fun _ => some (800, 600)
    audioDecode := fun _ => none
    isTypeSupported := fun _ => false
    timeoutFires := false }

/-- Concrete environment for the C2 witness: three images load, the audio
decodes with duration 9 s. -/
def audioSyncEnv : StitchEnv :=
  { imageDims := fun _ => some (1080, 1920)
    audioDecode := fun _ => some 9
    isTypeSupported := fun _ => true
    timeoutFires := false }

/-- Concrete environment for the C5 witness: the image loads but the audio
fetch/decode throws (e.g. a 404 payload). -/
def audioFailEnv : StitchEnv :=
  { imageDims := fun _ => some (1080, 1920)
    audioDecode := fun _ => none
    isTypeSupported := fun _ => true
    timeoutFires := false }

/-- Concrete environment for the C7 witness: image and audio both available. -/
def tracksWitnessEnv : StitchEnv :=
  { imageDims := fun _ => some (640, 480)
    audioDecode := fun _ => some 4
    isTypeSupported := fun _ => true
    timeoutFires := false }

/-- Concrete environment for the C8 witness: context available but the video
element fires its error event (origin-policy denial). -/
def corsEnv : CropEnv :=
  { ctxAvailable := true
    videoNatural := none
    playSucceeds := true
    isTypeSupported := fun _ => true
    timeoutFires := false }

end CanvasStitcher

namespace FfmpegService

/-- Result of one provider attempt inside the server-side stub
(`src/services/ffmpegService.ts`). -/
inductive ApiResult where
  | ok (url : String)
  | thrown (message : String)
deriving DecidableEq, Repr

/-- Settlement of the promise returned by the service entry point; JS can
resolve with `undefined` (modelled as `none`). -/
inductive ServiceReturn where
  | resolvedWith (value : Option String)
  | rejectedWith (message : String)
deriving DecidableEq, Repr

/-- `KEY_FFMPEG_API` (ffmpegService.ts line 2), a non-empty constant. -/
def KEY_FFMPEG_API : String :=
  "UXI5SmFibkp3U1JXZ1FwUUU5bGc6Y2NkY2JkOGU1MThmODJmY2Y3OGIwMjM5"

/-- `KEY_RENDI` (ffmpegService.ts line 3), a non-empty constant. -/
def KEY_RENDI : String :=
  "eJxLMUu0NEgyNftO1NDe11DUxTkrVTbRIMdI1M7VMTrE0MEszTjGIj8wsyIkoNg+KSncJCXPK9EsN8XXOSgcA5N8RaQ=="

/-- `callFfmpegApi` (ffmpegService.ts lines 32-47): throws "No Key" when the
key constant is falsy (it is not), otherwise unconditionally throws the
placeholder error — the fetch is commented out. -/
def callFfmpegApi (images : List String) (audioUrl : Option String)
    (duration : ℚ) : ApiResult :=
  if KEY_FFMPEG_API = "" then ApiResult.thrown "No Key"
  else
    ApiResult.thrown
      "Primary API Integration Pending Documentation Schema - Skipping to fallback"

/-- `callRendiApi` (ffmpegService.ts lines 49-63): same structure as
`callFfmpegApi`; unconditionally throws. -/
def callRendiApi (images : List String) (audioUrl : Option String)
    (duration : ℚ) : ApiResult :=
  if KEY_RENDI = "" then ApiResult.thrown "No Key"
  else
    ApiResult.thrown "Fallback API Integration Pending Documentation Schema"

/-- `stitchVideoFrames` exported from ffmpegService.ts (lines 5-30): try the
primary provider, on a caught error try the fallback provider, and when both
fail resolve with `images[0]` as a static placeholder. -/
def stitchVideoFrames (images : List String) (audioUrl : Option String)
    (durationPerImage : ℚ) : ServiceReturn :=
  match callFfmpegApi images audioUrl durationPerImage with
  | ApiResult.ok url => ServiceReturn.resolvedWith (some url)
  | ApiResult.thrown _ =>
      match callRendiApi images audioUrl durationPerImage with
      | ApiResult.ok url => ServiceReturn.resolvedWith (some url)
      | ApiResult.thrown _ => ServiceReturn.resolvedWith images.head?

end FfmpegService

namespace CanvasStitcher

lemma stitchCoverFit_wide (iW iH tW tH : ℚ) (h : tW / tH < iW / iH) :
    stitchCoverFit iW iH tW tH =
      { renderW := iW * (tH / iH), renderH := tH,
        offsetX := (tW - iW * (tH / iH)) / 2, offsetY := 0 } := by
  unfold stitchCoverFit
  rw [if_pos h]

lemma stitchCoverFit_tall (iW iH tW tH : ℚ) (h : ¬ tW / tH < iW / iH) :
    stitchCoverFit iW iH tW tH =
      { renderW := tW, renderH := iH * (tW / iW),
        offsetX := 0, offsetY := (tH - iH * (tW / iW)) / 2 } := by
  unfold stitchCoverFit
  rw [if_neg h]

lemma cropCoverFit_eq_stitch (iW iH tW tH : ℚ) :
    cropCoverFit iW iH tW tH = stitchCoverFit iW iH tW tH := rfl

/-- Full characterization of the object-cover block under positive source and
target dimensions. -/
lemma stitchCoverFit_spec (iW iH tW tH : ℚ)
    (hiW : 0 < iW) (hiH : 0 < iH) (htW : 0 < tW) (htH : 0 < tH) :
    coverFitClaim iW iH tW tH (stitchCoverFit iW iH tW tH) ∧
    coverFitOffsets (stitchCoverFit iW iH tW tH) := by
  have hiW' : iW ≠ 0 := ne_of_gt hiW
  have hiH' : iH ≠ 0 := ne_of_gt hiH
  have htH' : tH ≠ 0 := ne_of_gt htH
  have htW' : tW ≠ 0 := ne_of_gt htW
  by_cases h : tW / tH < iW / iH
  · have hx : tW * iH < iW * tH := (div_lt_div_iff₀ htH hiH).mp h
    rw [stitchCoverFit_wide iW iH tW tH h]
    have hrw : tW < iW * (tH / iH) := by
      rw [← mul_div_assoc, lt_div_iff₀ hiH]
      exact hx
    have hmax : max (tW / iW) (tH / iH) = tH / iH := by
      apply max_eq_right
      rw [div_le_div_iff₀ hiW hiH]
      nlinarith [hx]
    have hH : iH * (tH / iH) = tH := by field_simp
    have hoffX : (tW - iW * (tH / iH)) / 2 < 0 := by linarith [hrw]
    refine ⟨⟨hrw.le, le_refl tH, ?_, ?_, rfl, ?_, ?_, ?_⟩,
      hoffX.le, le_refl 0, Or.inr rfl⟩
    · rw [hmax]
    · rw [hmax, hH]
    · show (0 : ℚ) = (tH - tH) / 2
      simp
    · intro heq
      exact absurd heq h.ne'
    · intro _
      exact Or.inr ⟨hoffX.ne, rfl⟩
  · have hle : iW / iH ≤ tW / tH := not_lt.mp h
    have hx : iW * tH ≤ tW * iH := (div_le_div_iff₀ hiH htH).mp hle
    rw [stitchCoverFit_tall iW iH tW tH h]
    have hrh : tH ≤ iH * (tW / iW) := by
      rw [← mul_div_assoc, le_div_iff₀ hiW]
      nlinarith [hx]
    have hmax : max (tW / iW) (tH / iH) = tW / iW := by
      apply max_eq_left
      rw [div_le_div_iff₀ hiH hiW]
      nlinarith [hx]
    have hW : iW * (tW / iW) = tW := by field_simp
    have hoffY : (tH - iH * (tW / iW)) / 2 ≤ 0 := by linarith [hrh]
    refine ⟨⟨le_refl tW, hrh, ?_, ?_, ?_, rfl, ?_, ?_⟩,
      le_refl 0, hoffY, Or.inl rfl⟩
    · rw [hmax, hW]
    · rw [hmax]
    · show (0 : ℚ) = (tW - tW) / 2
      simp
    · intro heq
      have hE : iW * tH = tW * iH := (div_eq_div_iff hiH' htH').mp heq
      have hTall : iH * (tW / iW) = tH := by
        field_simp
        linear_combination -hE
      refine ⟨rfl, ?_⟩
      show (tH - iH * (tW / iW)) / 2 = 0
      rw [hTall]
      simp
    · intro hne
      have hlt : iW / iH < tW / tH := lt_of_le_of_ne hle hne
      have hx' : iW * tH < tW * iH := (div_lt_div_iff₀ hiH htH).mp hlt
      have hrh' : tH < iH * (tW / iW) := by
        rw [← mul_div_assoc, lt_div_iff₀ hiW]
        nlinarith [hx']
      have hY : (tH - iH * (tW / iW)) / 2 < 0 := by linarith [hrh']
      exact Or.inl ⟨rfl, hY.ne⟩

/-- A draw loop over sources that all load issues no failure and uses the same
window for every image. -/
lemma drawLoop_ok (env : StitchEnv) (cw ch durMs : ℚ) (srcs : List String)
    (h : ∀ s ∈ srcs, (env.imageDims s).isSome) :
    (drawLoop env cw ch durMs srcs).failed = none ∧
    (drawLoop env cw ch durMs srcs).windows =
      List.replicate srcs.length durMs := by
  induction srcs with
  | nil => exact ⟨rfl, rfl⟩
  | cons x rest ih =>
      have hx := h x (List.mem_cons_self x rest)
      rw [Option.isSome_iff_exists] at hx
      obtain ⟨⟨w, v⟩, hd⟩ := hx
      have ih' := ih (fun s hs => h s (List.mem_cons_of_mem x hs))
      refine ⟨?_, ?_⟩ <;>
        simp [drawLoop, hd, ih'.1, ih'.2, List.replicate_succ]

/-- Shape of a fully successful stitch run: with a nonempty image list whose
members all load and no deadline expiry, the promise resolves, the combined
stream is one video track plus an audio track exactly when an audio
destination was wired, and every image is drawn for the (possibly
re-derived) per-image window. -/
lemma stitchVideoFrames_success (env : StitchEnv) (x : String)
    (xs : List String) (audioUrl : Option String) (callerMs : ℚ)
    (tW tH : Option ℚ)
    (hload : ∀ s ∈ x :: xs, (env.imageDims s).isSome)
    (hto : env.timeoutFires = false) :
    (stitchVideoFrames env (x :: xs) audioUrl callerMs tW tH).outcome =
      Settled.resolved ∧
    (stitchVideoFrames env (x :: xs) audioUrl callerMs tW tH).combined =
      some (Track.video ::
        (if (prepareAudio env audioUrl (x :: xs).length callerMs).dest then
          [Track.audio] else [])) ∧
    (stitchVideoFrames env (x :: xs) audioUrl callerMs tW tH).drawWindows =
      some (List.replicate (x :: xs).length
        (prepareAudio env audioUrl (x :: xs).length callerMs).durationPerImageMs) := by
  have hx := hload x (List.mem_cons_self x xs)
  rw [Option.isSome_iff_exists] at hx
  obtain ⟨⟨fw, fh⟩, hd⟩ := hx
  have hdl := drawLoop_ok env (orNatural tW fw) (orNatural tH fh)
    ((prepareAudio env audioUrl (x :: xs).length callerMs).durationPerImageMs)
    (x :: xs) hload
  simp only [List.length_cons] at hdl
  refine ⟨?_, ?_, ?_⟩ <;>
    simp [stitchVideoFrames, hd, hto, hdl.1, hdl.2]

/-- Shape of the combined stream and mime type of any stitch run: either the
pipeline failed before constructing the stream, or the stream is one video
track plus at most one audio track and the recorder was created with the
selected mime type. -/
lemma stitchVideoFrames_shape (env : StitchEnv) (images : List String)
    (audioUrl : Option String) (durMs : ℚ) (tW tH : Option ℚ) :
    ((stitchVideoFrames env images audioUrl durMs tW tH).combined = none ∧
      (stitchVideoFrames env images audioUrl durMs tW tH).mimeType = none) ∨
    (∃ b : Bool,
      (stitchVideoFrames env images audioUrl durMs tW tH).combined =
        some (Track.video :: (if b then [Track.audio] else [])) ∧
      (stitchVideoFrames env images audioUrl durMs tW tH).mimeType =
        some (stitchSelectMimeType env.isTypeSupported)) := by
  unfold stitchVideoFrames
  dsimp only
  split
  · exact Or.inl ⟨rfl, rfl⟩
  · split
    · exact Or.inr ⟨_, rfl, rfl⟩
    · split
      · exact Or.inr ⟨_, rfl, rfl⟩
      · exact Or.inr ⟨_, rfl, rfl⟩

/-- Shape of the combined stream and mime type of any crop run. -/
lemma cropVideo_shape (env : CropEnv) (url : String) (tw th : ℚ) :
    ((cropVideo env url tw th).combined = none ∧
      (cropVideo env url tw th).mimeType = none) ∨
    ((cropVideo env url tw th).combined =
        some [Track.video, Track.audio] ∧
      (cropVideo env url tw th).mimeType =
        some (cropSelectMimeType env.isTypeSupported)) := by
  unfold cropVideo
  dsimp only
  split
  · split
    · exact Or.inr ⟨rfl, rfl⟩
    · split
      · exact Or.inr ⟨rfl, rfl⟩
      · split
        · exact Or.inr ⟨rfl, rfl⟩
        · exact Or.inr ⟨rfl, rfl⟩
  · exact Or.inl ⟨rfl, rfl⟩

/-- C1: Cover-fit geometry correctness.  For every source with positive
natural width and height and every positive target width and height, the
render rectangle computed by the frame compositor satisfies
`renderW ≥ targetW` and `renderH ≥ targetH`, equals the natural dimensions
scaled by `max (targetW / srcW) (targetH / srcH)`, centers the overflow on
the overflowing axis, has exactly one of `offsetX` / `offsetY` equal to zero
when the aspect ratios differ and both zero when they are equal; and the
geometry block of `cropVideo` computes exactly the same rectangle as the one
in `stitchVideoFrames`. -/
theorem c1_cover_fit_geometry (iW iH tW tH : ℚ)
    (hiW : 0 < iW) (hiH : 0 < iH) (htW : 0 < tW) (htH : 0 < tH) :
    coverFitClaim iW iH tW tH (stitchCoverFit iW iH tW tH) ∧
    cropCoverFit iW iH tW tH = stitchCoverFit iW iH tW tH :=
  ⟨(stitchCoverFit_spec iW iH tW tH hiW hiH htW htH).1, rfl⟩

/-- Witness for C1 at the concrete input of the specification's end-to-end
scenario: an 800x600 landscape image rendered into a 720x1280 portrait
target. -/
theorem c1_cover_fit_geometry_witness :
    (0 : ℚ) < 800 ∧ (0 : ℚ) < 600 ∧ (0 : ℚ) < 720 ∧ (0 : ℚ) < 1280 ∧
    (coverFitClaim 800 600 720 1280 (stitchCoverFit 800 600 720 1280) ∧
      cropCoverFit 800 600 720 1280 = stitchCoverFit 800 600 720 1280) :=
  ⟨by norm_num, by norm_num, by norm_num, by norm_num,
    c1_cover_fit_geometry 800 600 720 1280
      (by norm_num) (by norm_num) (by norm_num) (by norm_num)⟩

/-- C10: Offsets are never positive.  For every source with positive natural
width and height and every positive target width and height, the cover-fit
offsets computed in `stitchVideoFrames` and in `cropVideo` satisfy
`offsetX ≤ 0` and `offsetY ≤ 0`, and the non-overflowing axis has offset
exactly zero. -/
theorem c10_offsets_nonpositive (iW iH tW tH : ℚ)
    (hiW : 0 < iW) (hiH : 0 < iH) (htW : 0 < tW) (htH : 0 < tH) :
    coverFitOffsets (stitchCoverFit iW iH tW tH) ∧
    coverFitOffsets (cropCoverFit iW iH tW tH) := by
  have h := (stitchCoverFit_spec iW iH tW tH hiW hiH htW htH).2
  exact ⟨h, by rw [cropCoverFit_eq_stitch]; exact h⟩

/-- Witness for C10 at a concrete input: a 600x800 portrait image rendered
into a 720x1280 portrait target. -/
theorem c10_offsets_nonpositive_witness :
    (0 : ℚ) < 600 ∧ (0 : ℚ) < 800 ∧ (0 : ℚ) < 720 ∧ (0 : ℚ) < 1280 ∧
    (coverFitOffsets (stitchCoverFit 600 800 720 1280) ∧
      coverFitOffsets (cropCoverFit 600 800 720 1280)) :=
  ⟨by norm_num, by norm_num, by norm_num, by norm_num,
    c10_offsets_nonpositive 600 800 720 1280
      (by norm_num) (by norm_num) (by norm_num) (by norm_num)⟩

end CanvasStitcher

namespace CanvasStitcher

/-- C2: Duration re-derivation.  Whenever an audio track is successfully
decoded with duration `d` seconds (positive: a decoded `AudioBuffer` holds at
least one sample frame, which is what the guard on line 246 checks) and the
input list holds `n` images, the paced draw window used for every image
equals `d / n * 1000` milliseconds, for every caller-supplied per-image
duration `callerMs` — i.e. the caller value (default 5000 ms) is
overridden. -/
theorem c2_duration_rederivation (env : StitchEnv) (x : String)
    (xs : List String) (url : String) (callerMs : ℚ) (tW tH : Option ℚ)
    (d : ℚ)
    (hload : ∀ s ∈ x :: xs, (env.imageDims s).isSome)
    (hdec : env.audioDecode url = some d) (hd : 0 < d)
    (hto : env.timeoutFires = false) :
    (stitchVideoFrames env (x :: xs) (some url) callerMs tW tH).outcome =
      Settled.resolved ∧
    (stitchVideoFrames env (x :: xs) (some url) callerMs tW tH).drawWindows =
      some (List.replicate (x :: xs).length
        (d / ((x :: xs).length : ℚ) * 1000)) := by
  have h := stitchVideoFrames_success env x xs (some url) callerMs tW tH
    hload hto
  refine ⟨h.1, ?_⟩
  have hap : (prepareAudio env (some url) (x :: xs).length
      callerMs).durationPerImageMs = d * 1000 / ((x :: xs).length : ℚ) := by
    simp [prepareAudio, hdec, hd]
  rw [h.2.2, hap]
  congr 1
  congr 1
  ring

/-- Witness for C2 at the specification's end-to-end scenario: three images,
9-second audio, caller default 5000 ms; every draw window is
9/3*1000 = 3000 ms. -/
theorem c2_duration_rederivation_witness :
    (stitchVideoFrames audioSyncEnv ["s1", "s2", "s3"] (some "voice.mp3")
        5000 (some 720) (some 1280)).outcome = Settled.resolved ∧
    (stitchVideoFrames audioSyncEnv ["s1", "s2", "s3"] (some "voice.mp3")
        5000 (some 720) (some 1280)).drawWindows =
      some (List.replicate (["s1", "s2", "s3"] : List String).length
        ((9 : ℚ) / (((["s1", "s2", "s3"] : List String).length : ℕ) : ℚ) *
          1000)) :=
  c2_duration_rederivation audioSyncEnv "s1" ["s2", "s3"] "voice.mp3" 5000
    (some 720) (some 1280) 9 (by decide) rfl (by norm_num) rfl

/-- C3: Timeout with guaranteed teardown — evaluation at the failing input.
The deadlines are indeed 30 s and 60 s and on expiry both pipelines reject
with the timeout error, but the guards' callbacks perform no teardown: at the
moment of rejection the audio context is still open (`some false`) and the
recorder is still recording, in both `stitchVideoFrames` and `cropVideo`,
contradicting the claimed guaranteed teardown. -/
theorem c3_timeout_no_teardown :
    stitchTimeoutMs = 30000 ∧ cropTimeoutMs = 60000 ∧
    (stitchVideoFrames timeoutStitchEnv ["frame1", "frame2"]
        (some "voice.mp3") 5000 (some 720) (some 1280)).outcome =
      Settled.rejected StitchError.timeout ∧
    (stitchVideoFrames timeoutStitchEnv ["frame1", "frame2"]
        (some "voice.mp3") 5000 (some 720) (some 1280)).audioCtxClosed =
      some false ∧
    (stitchVideoFrames timeoutStitchEnv ["frame1", "frame2"]
        (some "voice.mp3") 5000 (some 720) (some 1280)).recorderRecording =
      true ∧
    (cropVideo timeoutCropEnv "https://example.com/src.mp4" 720
        1280).outcome = Settled.rejected CropError.timeout ∧
    (cropVideo timeoutCropEnv "https://example.com/src.mp4" 720
        1280).audioCtxClosed = some false ∧
    (cropVideo timeoutCropEnv "https://example.com/src.mp4" 720
        1280).recorderRecording = true := by
  refine ⟨rfl, rfl, ?_, ?_, ?_, ?_, ?_, ?_⟩ <;> rfl

/-- C4: Empty-input rejection — evaluation at the failing input.  On an empty
image list `stitchVideoFrames` does not fail with `InvalidInput` and does not
avoid network I/O: `images[0]` is `undefined`, the image element coerces it
to the URL string "undefined" and issues a load (a network request), and the
pipeline rejects with that load's error instead. -/
theorem c4_empty_input_fetches_undefined :
    (stitchVideoFrames emptyInputEnv [] none 5000 none none).events =
      [IOEvent.loadImage "undefined"] ∧
    (stitchVideoFrames emptyInputEnv [] none 5000 none none).outcome =
      Settled.rejected (StitchError.mediaLoad "undefined") ∧
    (stitchVideoFrames emptyInputEnv [] none 5000 none none).outcome ≠
      Settled.rejected StitchError.invalidInput := by
  refine ⟨rfl, rfl, ?_⟩
  decide

/-- C5: Graceful audio degradation.  For every nonempty image list whose
members all load, with an audio URL supplied whose fetch or decode throws,
and no deadline expiry, `stitchVideoFrames` still resolves, and the combined
stream carries no audio track (a silent video). -/
theorem c5_graceful_audio_degradation (env : StitchEnv) (x : String)
    (xs : List String) (url : String) (callerMs : ℚ) (tW tH : Option ℚ)
    (hload : ∀ s ∈ x :: xs, (env.imageDims s).isSome)
    (hdec : env.audioDecode url = none)
    (hto : env.timeoutFires = false) :
    (stitchVideoFrames env (x :: xs) (some url) callerMs tW tH).outcome =
      Settled.resolved ∧
    (stitchVideoFrames env (x :: xs) (some url) callerMs tW tH).combined =
      some [Track.video] := by
  have h := stitchVideoFrames_success env x xs (some url) callerMs tW tH
    hload hto
  refine ⟨h.1, ?_⟩
  rw [h.2.1]
  simp [prepareAudio, hdec]

/-- Witness for C5: one image, an audio URL whose fetch yields no decodable
payload; the pipeline resolves with a video-only stream. -/
theorem c5_graceful_audio_degradation_witness :
    (stitchVideoFrames audioFailEnv ["scene"] (some "missing.mp3") 5000 none
        none).outcome = Settled.resolved ∧
    (stitchVideoFrames audioFailEnv ["scene"] (some "missing.mp3") 5000 none
        none).combined = some [Track.video] :=
  c5_graceful_audio_degradation audioFailEnv "scene" [] "missing.mp3" 5000
    none none (by decide) rfl rfl

/-- C6 counterexample: an environment in which the runtime reports every
entry of the preference list as unsupported.  The claim says the pipeline
must fail with a fatal `EncodingUnsupported` error; instead the run resolves,
with the recorder created on the hard-coded default mime type
`'video/webm'`. -/
theorem c6_no_support_still_proceeds :
    stitchMimeTypes.find? noEncodingEnv.isTypeSupported = none ∧
    (stitchVideoFrames noEncodingEnv ["img"] none 5000 none none).outcome =
      Settled.resolved ∧
    (stitchVideoFrames noEncodingEnv ["img"] none 5000 none none).mimeType =
      some "video/webm" := by
  refine ⟨rfl, ?_, ?_⟩ <;> rfl

/-- C6 (amended): Encoding selection.  The recording mime type is the first
entry of the ordered preference list that the runtime reports as supported;
when no entry is supported, both pipelines keep the hard-coded default
`'video/webm'` and proceed with it (no `EncodingUnsupported` failure exists
in the code).  Whenever a run constructs its recorder, the recorder's mime
type is exactly this selection. -/
theorem c6_encoding_selection :
    cropMimeTypes = stitchMimeTypes ∧
    (∀ f : String → Bool,
      (∃ t, stitchMimeTypes.find? f = some t ∧ stitchSelectMimeType f = t ∧
        cropSelectMimeType f = t ∧ f t = true) ∨
      (stitchMimeTypes.find? f = none ∧
        stitchSelectMimeType f = "video/webm" ∧
        cropSelectMimeType f = "video/webm")) ∧
    (∀ (env : StitchEnv) (images : List String) (audioUrl : Option String)
        (durMs : ℚ) (tW tH : Option ℚ),
      (stitchVideoFrames env images audioUrl durMs tW tH).mimeType = none ∨
      (stitchVideoFrames env images audioUrl durMs tW tH).mimeType =
        some (stitchSelectMimeType env.isTypeSupported)) ∧
    (∀ (env : CropEnv) (url : String) (tw th : ℚ),
      (cropVideo env url tw th).mimeType = none ∨
      (cropVideo env url tw th).mimeType =
        some (cropSelectMimeType env.isTypeSupported)) := by
  refine ⟨rfl, ?_, ?_, ?_⟩
  · intro f
    rcases hf : stitchMimeTypes.find? f with _ | t
    · have hf' : cropMimeTypes.find? f = none := hf
      exact Or.inr ⟨rfl, by simp [stitchSelectMimeType, hf],
        by simp [cropSelectMimeType, hf']⟩
    · have hf' : cropMimeTypes.find? f = some t := hf
      exact Or.inl ⟨t, rfl, by simp [stitchSelectMimeType, hf],
        by simp [cropSelectMimeType, hf'], List.find?_some hf⟩
  · intro env images audioUrl durMs tW tH
    rcases stitchVideoFrames_shape env images audioUrl durMs tW tH with
      h | ⟨b, hb⟩
    · exact Or.inl h.2
    · exact Or.inr hb.2
  · intro env url tw th
    rcases cropVideo_shape env url tw th with h | h
    · exact Or.inl h.2
    · exact Or.inr h.2

/-- C7: Output-stream track invariant.  Whenever `stitchVideoFrames` or
`cropVideo` constructs the combined recordable stream handed to the recorder,
that stream contains exactly one video track and at most one audio track. -/
theorem c7_track_invariant :
    (∀ (env : StitchEnv) (images : List String) (audioUrl : Option String)
        (durMs : ℚ) (tW tH : Option ℚ) (ts : List Track),
      (stitchVideoFrames env images audioUrl durMs tW tH).combined =
        some ts →
      ts.count Track.video = 1 ∧ ts.count Track.audio ≤ 1) ∧
    (∀ (env : CropEnv) (url : String) (tw th : ℚ) (ts : List Track),
      (cropVideo env url tw th).combined = some ts →
      ts.count Track.video = 1 ∧ ts.count Track.audio ≤ 1) := by
  constructor
  · intro env images audioUrl durMs tW tH ts hts
    rcases stitchVideoFrames_shape env images audioUrl durMs tW tH with
      h | ⟨b, hb⟩
    · rw [h.1] at hts
      cases hts
    · rw [hb.1] at hts
      injection hts with hts
      subst hts
      cases b <;> decide
  · intro env url tw th ts hts
    rcases cropVideo_shape env url tw th with h | h
    · rw [h.1] at hts
      cases hts
    · rw [h.1] at hts
      injection hts with hts
      subst hts
      decide

/-- Witness for C7: a stitch run with audio available hands the recorder one
video track and one audio track. -/
theorem c7_track_invariant_witness :
    ([Track.video, Track.audio] : List Track).count Track.video = 1 ∧
    ([Track.video, Track.audio] : List Track).count Track.audio ≤ 1 :=
  c7_track_invariant.1 tracksWitnessEnv ["a"] (some "u") 5000 none none
    [Track.video, Track.audio] (by decide)

/-- C8: Cross-origin failure of `cropVideo`.  Whenever the canvas context is
available but the source video cannot be loaded/captured (the element fires
its error event, the origin-policy denial case), `cropVideo` rejects with the
load error carrying the CORS message, and does not resolve — no composite
asset is produced. -/
theorem c8_cross_origin_failure (env : CropEnv) (url : String) (tw th : ℚ)
    (hctx : env.ctxAvailable = true) (hload : env.videoNatural = none) :
    (cropVideo env url tw th).outcome =
      Settled.rejected (CropError.loadError corsMessage) ∧
    (cropVideo env url tw th).outcome ≠ Settled.resolved := by
  constructor <;> simp [cropVideo, hctx, hload]

/-- Witness for C8: a concrete environment in which the video element's load
is denied by origin policy. -/
theorem c8_cross_origin_failure_witness :
    (cropVideo corsEnv "https://thirdparty.example/video.mp4" 720
        1280).outcome = Settled.rejected (CropError.loadError corsMessage) ∧
    (cropVideo corsEnv "https://thirdparty.example/video.mp4" 720
        1280).outcome ≠ Settled.resolved :=
  c8_cross_origin_failure corsEnv "https://thirdparty.example/video.mp4" 720
    1280 rfl rfl

end CanvasStitcher

namespace FfmpegService

/-- C9: Server-side stub is a constant placeholder.  For every non-empty
image list (and any audio URL and duration), the `stitchVideoFrames` exported
from ffmpegService.ts resolves with the first element of the list and never
rejects: both provider attempts unconditionally throw and the final fallback
returns `images[0]`. -/
theorem c9_stub_resolves_first_image (x : String) (xs : List String)
    (audioUrl : Option String) (durationPerImage : ℚ) :
    stitchVideoFrames (x :: xs) audioUrl durationPerImage =
      ServiceReturn.resolvedWith (some x) := rfl

end FfmpegService
